import Mathlib

/-!
Verification development for a FastAPI CRUD boilerplate service.

The Python source is shallowly embedded: environment-variable lookup and the
configuration classes of `core/config.py` become pure functions over an
association list of environment variables; the recursive serialization helper
of `utils/response_helpers.py` becomes a recursive function over a `PyValue`
type modelling the Python runtime values it inspects; the user CRUD endpoint
handlers of `api/users.py` become pure functions of the request parameters and
an explicit list-of-rows database state; the global exception handlers and the
root endpoint of `main.py` become functions of the configuration and the fault.
-/

/-! ## Configuration (`core/config.py`) -/

/-- ASCII case folding, modelling Python's `str.lower()` on the ASCII strings
compared by the configuration code. -/
def lowerChar (c : Char) : Char :=
  if 65 ≤ c.toNat ∧ c.toNat ≤ 90 then Char.ofNat (c.toNat + 32) else c

/-- `s.lower()` for ASCII strings. -/
def asciiLower (s : String) : String :=
  String.mk (s.data.map lowerChar)

/-- An environment: association list from variable name to value.
`os.getenv(key, default)` returns the first binding of `key`, or the default
when the key is unbound. -/
def getenv (env : List (String × String)) (key dflt : String) : String :=
  (env.lookup key).getD dflt

/-- `AppConfig.ENVIRONMENT = os.getenv("ENVIRONMENT", "development")`. -/
def app_config_ENVIRONMENT (env : List (String × String)) : String :=
  getenv env "ENVIRONMENT" "development"

/-- `AppConfig.is_development`: case-insensitive equality of the environment
name with "development". -/
def app_config_is_development (env : List (String × String)) : Bool :=
  asciiLower (app_config_ENVIRONMENT env) == "development"

/-- `AppConfig.is_production`: case-insensitive equality of the environment
name with "production". -/
def app_config_is_production (env : List (String × String)) : Bool :=
  asciiLower (app_config_ENVIRONMENT env) == "production"

/-- `APIConfig.RELOAD` as written in the class body:
`os.getenv("API_RELOAD", "true").lower() == "true"` when
`os.getenv("ENVIRONMENT", "development").lower() == "development"`, else
`False`. -/
def APIConfig_RELOAD_initial (env : List (String × String)) : Bool :=
  if asciiLower (getenv env "ENVIRONMENT" "development") == "development" then
    asciiLower (getenv env "API_RELOAD" "true") == "true"
  else
    false

/-- The resolved `api_config.RELOAD` after the module-level override
`if app_config.is_production: api_config.RELOAD = False`, which runs once when
`core/config.py` is imported. -/
def api_config_RELOAD (env : List (String × String)) : Bool :=
  if app_config_is_production env then false else APIConfig_RELOAD_initial env

/-! ## Root endpoint and docs mounting (`main.py`) -/

/-- The body returned by the `root` endpoint of `main.py` (`docs` is a string
either way; `redoc` is `"/redoc"` in development and JSON null otherwise,
modelled as `Option String` with `none` for null). -/
structure RootInfo where
  message : String
  version : String
  environment : String
  docs : String
  redoc : Option String
  health : String
deriving DecidableEq

/-- The `root` endpoint of `main.py`, as a function of the environment and the
configured title/version. -/
def root (env : List (String × String)) (title version : String) : RootInfo :=
  { message := "Welcome to " ++ title
    version := version
    environment := app_config_ENVIRONMENT env
    docs := if app_config_is_development env then "/docs"
            else "Documentation disabled in production"
    redoc := if app_config_is_development env then some "/redoc" else none
    health := "/health" }

/-- `docs_url="/docs" if app_config.is_development else None` in the `FastAPI`
constructor call: the interactive documentation route is mounted only in
development. -/
def app_docs_url (env : List (String × String)) : Option String :=
  if app_config_is_development env then some "/docs" else none

/-- `redoc_url="/redoc" if app_config.is_development else None` in the
`FastAPI` constructor call. -/
def app_redoc_url (env : List (String × String)) : Option String :=
  if app_config_is_development env then some "/redoc" else none

/-! ## Theorems for configuration claims -/

theorem resolved_reload_as_bool (env : List (String × String)) :
    api_config_RELOAD env =
      ((asciiLower (getenv env "API_RELOAD" "true") == "true") &&
        (asciiLower (getenv env "ENVIRONMENT" "development") == "development")) := by
  unfold api_config_RELOAD app_config_is_production app_config_ENVIRONMENT
    APIConfig_RELOAD_initial
  cases hd : (asciiLower (getenv env "ENVIRONMENT" "development") == "development")
  · cases hp : (asciiLower (getenv env "ENVIRONMENT" "development") == "production") <;>
      simp [hd, hp]
  · have hp : (asciiLower (getenv env "ENVIRONMENT" "development") == "production") = false := by
      have he : asciiLower (getenv env "ENVIRONMENT" "development") = "development" :=
        eq_of_beq hd
      rw [he]; decide
    simp [hd, hp]

/-- Claim C7: the resolved auto-reload flag is true exactly when `API_RELOAD`
parses (case-insensitively) as "true" and the environment name is
case-insensitively "development"; and whenever the resolved environment is
production, the resolved flag is false regardless of `API_RELOAD`. -/
theorem reload_resolved_iff (env : List (String × String)) :
    (api_config_RELOAD env = true ↔
      (asciiLower (getenv env "API_RELOAD" "true") = "true" ∧
        asciiLower (getenv env "ENVIRONMENT" "development") = "development")) ∧
    (app_config_is_production env = true → api_config_RELOAD env = false) :=
  ⟨by rw [resolved_reload_as_bool]; simp [Bool.and_eq_true, beq_iff_eq],
   fun h => by unfold api_config_RELOAD; simp [h]⟩

/-- Witness for C7 at concrete environments: with `ENVIRONMENT=Production` and
`API_RELOAD=true`, the resolved flag is false; with the environment unset and
`API_RELOAD` unset, it is true. -/
theorem reload_resolved_iff_witness :
    api_config_RELOAD [("ENVIRONMENT", "Production"), ("API_RELOAD", "true")] = false ∧
    api_config_RELOAD [] = true :=
  ⟨(reload_resolved_iff [("ENVIRONMENT", "Production"), ("API_RELOAD", "true")]).2
      (by decide),
   (reload_resolved_iff []).1.2 ⟨by decide, by decide⟩⟩

theorem not_development_of_production (env : List (String × String))
    (h : app_config_is_production env = true) :
    app_config_is_development env = false := by
  unfold app_config_is_production at h
  unfold app_config_is_development
  have he : asciiLower (app_config_ENVIRONMENT env) = "production" := eq_of_beq h
  rw [he]; decide

/-- Claim C8: with the environment unset (defaulting to development) the root
body has `docs = "/docs"` and `redoc = "/redoc"`; whenever the resolved
environment is production, `docs` reads "Documentation disabled in production",
`redoc` is null, and neither interactive documentation route is mounted. -/
theorem root_docs_fields (title version : String) :
    ((root [] title version).docs = "/docs" ∧
      (root [] title version).redoc = some "/redoc") ∧
    (∀ env : List (String × String), app_config_is_production env = true →
      ((root env title version).docs = "Documentation disabled in production" ∧
        (root env title version).redoc = none ∧
        app_docs_url env = none ∧ app_redoc_url env = none)) := by
  refine ⟨⟨?_, ?_⟩, ?_⟩
  · show (if app_config_is_development [] then "/docs"
          else "Documentation disabled in production") = "/docs"
    decide
  · show (if app_config_is_development [] then some "/redoc" else none) = some "/redoc"
    decide
  · intro env hp
    have hd := not_development_of_production env hp
    unfold root app_docs_url app_redoc_url
    simp [hd]

/-- Witness for C8 at `ENVIRONMENT=production`. -/
theorem root_docs_fields_witness :
    (root [("ENVIRONMENT", "production")] "FastAPI Boilerplate" "1.0.0").docs =
      "Documentation disabled in production" ∧
    (root [("ENVIRONMENT", "production")] "FastAPI Boilerplate" "1.0.0").redoc = none ∧
    app_docs_url [("ENVIRONMENT", "production")] = none ∧
    app_redoc_url [("ENVIRONMENT", "production")] = none :=
  (root_docs_fields "FastAPI Boilerplate" "1.0.0").2 [("ENVIRONMENT", "production")]
    (by decide)

/-! ## Python runtime values (`utils/response_helpers.py`)

`_serialize_value` inspects arbitrary Python values. The value space it
distinguishes is modelled as a mutual inductive: one constructor per branch of
the `isinstance`/`hasattr` chain. `entity` is a SQLAlchemy mapped object,
carrying its column-name-to-raw-value mapping (the `User` model declares no
relationships, so the relationship walk of `_serialize_sqlalchemy_obj` is
vacuous); `pydanticObj` carries the result of `model_dump()`; `toDictObj`
carries the result of `to_dict()`; `attrObj` carries `__dict__`; `strRepr`
carries the `str(value)` of an object reaching the fallback branch. Mapping
keys are modelled as strings. -/

/-- A naive `datetime.datetime` with zero microseconds. -/
structure PyDateTime where
  year : Nat
  month : Nat
  day : Nat
  hour : Nat
  minute : Nat
  second : Nat
deriving DecidableEq

/-- A `datetime.date`. -/
structure PyDate where
  year : Nat
  month : Nat
  day : Nat
deriving DecidableEq

/-- A `datetime.time` with zero microseconds. -/
structure PyTime where
  hour : Nat
  minute : Nat
  second : Nat
deriving DecidableEq

/-- Decimal digits, zero-padded to width 2. -/
def pad2 (n : Nat) : String :=
  if n < 10 then "0" ++ toString n else toString n

/-- Decimal digits, zero-padded to width 4. -/
def pad4 (n : Nat) : String :=
  if n < 10 then "000" ++ toString n
  else if n < 100 then "00" ++ toString n
  else if n < 1000 then "0" ++ toString n
  else toString n

/-- `datetime.isoformat()` for a naive value with zero microseconds:
`YYYY-MM-DDTHH:MM:SS`. -/
def PyDateTime.isoformat (d : PyDateTime) : String :=
  pad4 d.year ++ "-" ++ pad2 d.month ++ "-" ++ pad2 d.day ++ "T" ++
    pad2 d.hour ++ ":" ++ pad2 d.minute ++ ":" ++ pad2 d.second

/-- `date.isoformat()`: `YYYY-MM-DD`. -/
def PyDate.isoformat (d : PyDate) : String :=
  pad4 d.year ++ "-" ++ pad2 d.month ++ "-" ++ pad2 d.day

/-- `time.isoformat()` for zero microseconds: `HH:MM:SS`. -/
def PyTime.isoformat (t : PyTime) : String :=
  pad2 t.hour ++ ":" ++ pad2 t.minute ++ ":" ++ pad2 t.second

/-- Whether a byte is a UTF-8 continuation byte (`0x80..0xBF`). -/
def isContByte (b : Nat) : Prop := 0x80 ≤ b ∧ b ≤ 0xBF

instance (b : Nat) : Decidable (isContByte b) := by unfold isContByte; infer_instance

/-- Strict UTF-8 decoding of a byte list to a list of code points, as
performed by `bytes.decode("utf-8")`: rejects truncated sequences, stray or
missing continuation bytes, overlong encodings, surrogates, and code points
above `0x10FFFF`. Returns `none` exactly when Python raises
`UnicodeDecodeError`. -/
def utf8Decode : List Nat → Option (List Nat)
  | [] => some []
  | b :: rest =>
    if b < 0x80 then
      (utf8Decode rest).map (fun cps => b :: cps)
    else if 0xC2 ≤ b ∧ b ≤ 0xDF then
      match rest with
      | b2 :: rest2 =>
        if isContByte b2 then
          (utf8Decode rest2).map (fun cps => ((b - 0xC0) * 64 + (b2 - 0x80)) :: cps)
        else none
      | [] => none
    else if 0xE0 ≤ b ∧ b ≤ 0xEF then
      match rest with
      | b2 :: b3 :: rest3 =>
        let cp := (b - 0xE0) * 4096 + (b2 - 0x80) * 64 + (b3 - 0x80)
        if isContByte b2 ∧ isContByte b3 ∧ 0x800 ≤ cp ∧
            ¬(0xD800 ≤ cp ∧ cp ≤ 0xDFFF) then
          (utf8Decode rest3).map (fun cps => cp :: cps)
        else none
      | _ => none
    else if 0xF0 ≤ b ∧ b ≤ 0xF4 then
      match rest with
      | b2 :: b3 :: b4 :: rest4 =>
        let cp := (b - 0xF0) * 262144 + (b2 - 0x80) * 4096 + (b3 - 0x80) * 64 +
          (b4 - 0x80)
        if isContByte b2 ∧ isContByte b3 ∧ isContByte b4 ∧ 0x10000 ≤ cp ∧
            cp ≤ 0x10FFFF then
          (utf8Decode rest4).map (fun cps => cp :: cps)
        else none
      | _ => none
    else none

/-- `value.decode("utf-8")` on success. -/
def utf8DecodeString (bs : List Nat) : Option String :=
  (utf8Decode bs).map (fun cps => String.mk (cps.map Char.ofNat))

/-- One lowercase hexadecimal digit. -/
def hexDigitChar (n : Nat) : Char :=
  if n < 10 then Char.ofNat (48 + n) else Char.ofNat (87 + n)

/-- `bytes.hex()`: two lowercase hexadecimal digits per byte, concatenated. -/
def bytesHex (bs : List Nat) : String :=
  bs.foldr (fun b acc => String.mk [hexDigitChar (b / 16), hexDigitChar (b % 16)] ++ acc) ""

mutual
inductive PyValue where
  | pynone
  | str (s : String)
  | int (n : Int)
  | float (q : Rat)
  | bool (b : Bool)
  | datetime (d : PyDateTime)
  | date (d : PyDate)
  | time (t : PyTime)
  | decimal (q : Rat)
  | bytes (bs : List Nat)
  | entity (cols : PyDict)
  | pydanticObj (dump : PyDict)
  | list (xs : PyList)
  | tuple (xs : PyList)
  | dict (kvs : PyDict)
  | toDictObj (d : PyDict)
  | attrObj (attrs : PyDict)
  | strRepr (s : String)
deriving DecidableEq
inductive PyList where
  | nil
  | cons (v : PyValue) (tl : PyList)
deriving DecidableEq
inductive PyDict where
  | nil
  | cons (k : String) (v : PyValue) (tl : PyDict)
deriving DecidableEq
end

/-- Whether a Python identifier starts with an underscore (internal
attribute). -/
def startsUnderscore (k : String) : Bool :=
  match k.data with
  | [] => false
  | c :: _ => c == '_'

mutual
/-- `ApiHelpers._serialize_value`, branch by branch in source order. The
`entity` case is `_serialize_sqlalchemy_obj` (columns only; the `User` model
has no relationships); the `pydanticObj` case is `_serialize_pydantic_obj`,
i.e. `obj.model_dump()` returned verbatim; the `toDictObj` case returns
`value.to_dict()` verbatim; the `attrObj` case rebuilds `__dict__` keeping
non-underscore keys with recursively converted values; `strRepr` is the
`str(value)` fallback. -/
def serialize_value : PyValue → PyValue
  | .pynone => .pynone
  | .str s => .str s
  | .int n => .int n
  | .float q => .float q
  | .bool b => .bool b
  | .datetime d => .str d.isoformat
  | .date d => .str d.isoformat
  | .time t => .str t.isoformat
  | .decimal q => .float q
  | .bytes bs =>
    match utf8DecodeString bs with
    | some s => .str s
    | none => .str (bytesHex bs)
  | .entity cols => .dict (serialize_dictVals cols)
  | .pydanticObj dump => .dict dump
  | .list xs => .list (serialize_list xs)
  | .tuple xs => .list (serialize_list xs)
  | .dict kvs => .dict (serialize_dictVals kvs)
  | .toDictObj d => .dict d
  | .attrObj attrs => .dict (serialize_attrs attrs)
  | .strRepr s => .str s
/-- Elementwise conversion of a list/tuple. -/
def serialize_list : PyList → PyList
  | .nil => .nil
  | .cons v tl => .cons (serialize_value v) (serialize_list tl)
/-- Valuewise conversion of a mapping, keys preserved. -/
def serialize_dictVals : PyDict → PyDict
  | .nil => .nil
  | .cons k v tl => .cons k (serialize_value v) (serialize_dictVals tl)
/-- The `__dict__` comprehension: drop keys starting with `_`, convert the
remaining values. -/
def serialize_attrs : PyDict → PyDict
  | .nil => .nil
  | .cons k v tl =>
    if startsUnderscore k then serialize_attrs tl
    else .cons k (serialize_value v) (serialize_attrs tl)
end

/-- `ApiHelpers._serialize_data`: `None` passes through, a bare list or tuple
is converted elementwise, anything else goes through `_serialize_value`. -/
def serialize_data : PyValue → PyValue
  | .pynone => .pynone
  | .list xs => .list (serialize_list xs)
  | .tuple xs => .list (serialize_list xs)
  | v => serialize_value v

/-- A `fastapi.responses.JSONResponse`: HTTP status code plus the content
mapping (in insertion order). -/
structure JSONResponse where
  status_code : Int
  content : List (String × PyValue)
deriving DecidableEq

/-- `ApiHelpers.endpointResponse`: serializes the data payload, builds the
envelope `{status_code, message, data}`, then merges the keyword arguments,
each individually converted, in order. -/
def endpointResponse (status_code : Int) (message : String) (data : PyValue)
    (kwargs : List (String × PyValue)) : JSONResponse :=
  { status_code := status_code
    content :=
      ("status_code", .int status_code) :: ("message", .str message) ::
        ("data", serialize_data data) ::
        kwargs.map (fun kv => (kv.1, serialize_value kv.2)) }

/-- Embedding of Lean lists into `PyList`. -/
def PyList.ofList : List PyValue → PyList
  | [] => .nil
  | v :: tl => .cons v (PyList.ofList tl)

/-- Length of a `PyList`. -/
def PyList.length : PyList → Nat
  | .nil => 0
  | .cons _ tl => tl.length + 1

/-- The keys of a `PyDict`, in order. -/
def PyDict.keys : PyDict → List String
  | .nil => []
  | .cons k _ tl => k :: tl.keys

/-! ## User model and endpoint handlers (`models/user.py`, `api/users.py`)

The database is an explicit list of rows; the unique indexes on `username` and
`email` are modelled in `create_user`: the `IntegrityError` that the storage
layer raises at commit time on a collision is the branch the handler's
`except IntegrityError` turns into the 400 response. A fault raised by the
database layer during a request is modelled by running a handler on an
`Except` value (`Except.error e` stands for "some awaited database call raised
`e`"), which the handler's `except` clauses catch. -/

/-- A row of the `users` table (`User` in `models/user.py` plus the
`CommonModel` columns). -/
structure UserRow where
  id : Nat
  username : String
  email : String
  full_name : Option String
  is_active : Bool
  is_superuser : Bool
  created_at : PyDateTime
  updated_at : PyDateTime
deriving DecidableEq

/-- A `User` ORM instance as seen by `_serialize_sqlalchemy_obj`: a mapped
entity whose columns are the eight mapped columns (base-class columns first);
the model declares no relationships. -/
def UserRow.toPy (u : UserRow) : PyValue :=
  .entity (.cons "id" (.int u.id) (.cons "created_at" (.datetime u.created_at)
    (.cons "updated_at" (.datetime u.updated_at)
    (.cons "username" (.str u.username) (.cons "email" (.str u.email)
    (.cons "full_name" (match u.full_name with
                        | some s => .str s
                        | none => .pynone)
    (.cons "is_active" (.bool u.is_active)
    (.cons "is_superuser" (.bool u.is_superuser) .nil))))))))

/-- The exception taxonomy relevant to the handlers: `IntegrityError` (a
subclass of `SQLAlchemyError`), other `SQLAlchemyError`s, and everything
else. -/
inductive Exc where
  | integrityError (msg : String)
  | sqlAlchemyError (msg : String)
  | otherError (msg : String)
deriving DecidableEq

/-- `str(e)` for an exception. -/
def Exc.text : Exc → String
  | .integrityError m => m
  | .sqlAlchemyError m => m
  | .otherError m => m

/-- The `UserCreate` request schema. -/
structure UserCreate where
  username : String
  email : String
  full_name : Option String
  is_active : Bool
  is_superuser : Bool
deriving DecidableEq

/-- The `UserUpdate` request schema; `none` models a field absent from the
request body, so that `model_dump(exclude_unset=True)` yields exactly the
`some` fields. -/
structure UserUpdate where
  username : Option String
  email : Option String
  full_name : Option String
  is_active : Option Bool
  is_superuser : Option Bool
deriving DecidableEq

/-- Whether `user_data.model_dump(exclude_unset=True)` is non-empty, i.e. the
commit issues an UPDATE (firing the `onupdate` timestamp refresh). -/
def UserUpdate.anyFieldSet (ud : UserUpdate) : Bool :=
  ud.username.isSome || ud.email.isSome || ud.full_name.isSome ||
    ud.is_active.isSome || ud.is_superuser.isSome

/-- `create_user` (`POST /register`): inserting a row whose username or email
collides with an existing row makes the commit raise `IntegrityError`, caught
and turned into the 400 response with the database unchanged; otherwise the
row is committed and refreshed (id and server-side timestamps populated) and
returned in a 201 envelope. -/
def create_user (user_data : UserCreate) (db : List UserRow) (new_id : Nat)
    (now : PyDateTime) : JSONResponse × List UserRow :=
  if db.any (fun u => u.username == user_data.username || u.email == user_data.email) then
    (endpointResponse 400 "User already exists" .pynone [], db)
  else
    let row : UserRow :=
      { id := new_id, username := user_data.username, email := user_data.email
        full_name := user_data.full_name, is_active := user_data.is_active
        is_superuser := user_data.is_superuser, created_at := now, updated_at := now }
    (endpointResponse 201 "User created successfully" row.toPy [], db ++ [row])

/-- `get_users` (`GET /`): on a database fault anywhere in the body the
catch-all returns 500 with `str(e)`; otherwise the page is
`offset/limit`-sliced with `offset = (page - 1) * per_page`, the total is a
separate unfiltered `count` over the whole table, and `total`, `page` and
`per_page` are merged into the envelope as keyword fields. -/
def get_users (page per_page : Nat) (db : Except Exc (List UserRow)) : JSONResponse :=
  match db with
  | .error e => endpointResponse 500 e.text .pynone []
  | .ok rows =>
    let offset := (page - 1) * per_page
    let users := (rows.drop offset).take per_page
    let total := rows.length
    endpointResponse 200 "Users fetched successfully"
      (.list (PyList.ofList (users.map UserRow.toPy)))
      [("total", .int total), ("page", .int page), ("per_page", .int per_page)]

/-- The `setattr` loop of `update_user`: each field present in
`model_dump(exclude_unset=True)` is assigned, the rest keep their stored
values; the `onupdate` server default refreshes `updated_at` when the commit
issues an UPDATE. -/
def apply_user_update (user : UserRow) (user_data : UserUpdate)
    (now : PyDateTime) : UserRow :=
  { user with
    username := user_data.username.getD user.username
    email := user_data.email.getD user.email
    full_name := match user_data.full_name with
                 | some v => some v
                 | none => user.full_name
    is_active := user_data.is_active.getD user.is_active
    is_superuser := user_data.is_superuser.getD user.is_superuser
    updated_at := if user_data.anyFieldSet then now else user.updated_at }

/-- `update_user` (`PUT /{user_id}`): 404 when no row matches, else partial
update of the matched row, commit, refresh, 200 envelope with the updated
entity. -/
def update_user (user_id : Nat) (user_data : UserUpdate) (db : List UserRow)
    (now : PyDateTime) : JSONResponse × List UserRow :=
  match db.find? (fun u => u.id == user_id) with
  | none => (endpointResponse 404 "User not found" .pynone [], db)
  | some user =>
    let updated := apply_user_update user user_data now
    (endpointResponse 200 "User updated successfully" updated.toPy [],
      db.map (fun u => if u.id == user_id then updated else u))

/-- `delete_user` (`DELETE /{user_id}`): 404 when no row matches, else the row
is deleted and committed and a 200 envelope with no data payload is
returned. -/
def delete_user (user_id : Nat) (db : List UserRow) : JSONResponse × List UserRow :=
  match db.find? (fun u => u.id == user_id) with
  | none => (endpointResponse 404 "User not found" .pynone [], db)
  | some _ =>
    (endpointResponse 200 "User deleted successfully" .pynone [],
      db.filter (fun u => !(u.id == user_id)))

/-! ## Global exception handlers (`main.py`) -/

/-- The structured error body built by `create_error_response`. -/
structure ErrorBody where
  error : String
  message : String
  status_code : Int
  path : String
  details : Option PyValue
  timestamp : String
deriving DecidableEq

/-- `create_error_response` in `main.py` (the timestamp, `datetime.now()`
there, is passed in). -/
def create_error_response (error_type message : String) (status_code : Int)
    (path : String) (details : Option PyValue) (timestamp : String) : ErrorBody :=
  { error := error_type, message := message, status_code := status_code
    path := path, details := details, timestamp := timestamp }

/-- `sqlalchemy_exception_handler`: a `SQLAlchemyError` reaching the global
handlers yields status 500 and the generic message in production, the
exception's own text otherwise. `excText` is `str(exc)`. -/
def sqlalchemy_exception_handler (env : List (String × String))
    (excText path timestamp : String) : Int × ErrorBody :=
  (500, create_error_response "Database Error"
    (if app_config_is_production env then "A database error occurred" else excText)
    500 path none timestamp)

/-- `general_exception_handler`: any other exception reaching the global
handlers yields status 500 and the generic message in production, the
exception's own text otherwise. -/
def general_exception_handler (env : List (String × String))
    (excText path timestamp : String) : Int × ErrorBody :=
  (500, create_error_response "Internal Server Error"
    (if app_config_is_production env then "An unexpected error occurred" else excText)
    500 path none timestamp)

/-! ## Helper lemmas -/

theorem serialize_list_ofList : ∀ l : List PyValue,
    serialize_list (PyList.ofList l) = PyList.ofList (l.map serialize_value)
  | [] => rfl
  | v :: tl => by
    simp [PyList.ofList, serialize_list, serialize_list_ofList tl]

theorem length_serialize_list : ∀ xs : PyList,
    (serialize_list xs).length = xs.length
  | .nil => rfl
  | .cons v tl => by
    simp [serialize_list, PyList.length, length_serialize_list tl]

theorem keys_serialize_dictVals : ∀ kvs : PyDict,
    (serialize_dictVals kvs).keys = kvs.keys
  | .nil => rfl
  | .cons k v tl => by
    simp [serialize_dictVals, PyDict.keys, keys_serialize_dictVals tl]

/-! ## Theorems for endpoint claims -/

/-- Claim C2: when the requested username or email collides with an existing
row, `create_user` answers 400 with message "User already exists" and the
stored user set is unchanged. -/
theorem create_user_duplicate (user_data : UserCreate) (db : List UserRow)
    (new_id : Nat) (now : PyDateTime)
    (h : db.any (fun u => u.username == user_data.username ||
        u.email == user_data.email) = true) :
    (create_user user_data db new_id now).1 =
      { status_code := 400
        content := [("status_code", .int 400),
          ("message", .str "User already exists"), ("data", .pynone)] } ∧
    (create_user user_data db new_id now).2 = db := by
  constructor <;> simp [create_user, h, endpointResponse, serialize_data]

/-- Witness for C2: registering "alice" again against a store already holding
a row with username "alice" yields 400 / "User already exists" and leaves the
store unchanged. -/
theorem create_user_duplicate_witness :
    (create_user ⟨"alice", "alice@example.com", none, true, false⟩
        [⟨1, "alice", "alice@other.org", none, true, false,
          ⟨2024, 1, 1, 0, 0, 0⟩, ⟨2024, 1, 1, 0, 0, 0⟩⟩] 2 ⟨2024, 1, 2, 0, 0, 0⟩).1 =
      { status_code := 400
        content := [("status_code", .int 400),
          ("message", .str "User already exists"), ("data", .pynone)] } ∧
    (create_user ⟨"alice", "alice@example.com", none, true, false⟩
        [⟨1, "alice", "alice@other.org", none, true, false,
          ⟨2024, 1, 1, 0, 0, 0⟩, ⟨2024, 1, 1, 0, 0, 0⟩⟩] 2 ⟨2024, 1, 2, 0, 0, 0⟩).2 =
      [⟨1, "alice", "alice@other.org", none, true, false,
        ⟨2024, 1, 1, 0, 0, 0⟩, ⟨2024, 1, 1, 0, 0, 0⟩⟩] :=
  create_user_duplicate ⟨"alice", "alice@example.com", none, true, false⟩
    [⟨1, "alice", "alice@other.org", none, true, false,
      ⟨2024, 1, 1, 0, 0, 0⟩, ⟨2024, 1, 1, 0, 0, 0⟩⟩] 2 ⟨2024, 1, 2, 0, 0, 0⟩
    (by decide)

theorem serialize_value_int (n : Int) : serialize_value (.int n) = .int n := rfl

/-- Claim C4: for a valid page and page size, `get_users` slices the stored
rows with offset `(page - 1) * per_page` and limit `per_page`, reports `total`
as the length of the whole unfiltered row list (an expression independent of
the page), echoes `page` and `per_page`, and the returned page has
`min per_page (total - offset)` items. -/
theorem get_users_pagination (page per_page : Nat) (rows : List UserRow)
    (h1 : 1 ≤ page) (h2 : 1 ≤ per_page) (h3 : per_page ≤ 100) :
    get_users page per_page (Except.ok rows) =
      { status_code := 200
        content := [("status_code", .int 200),
          ("message", .str "Users fetched successfully"),
          ("data", .list (PyList.ofList
            (((rows.drop ((page - 1) * per_page)).take per_page).map
              (fun u => serialize_value u.toPy)))),
          ("total", .int rows.length), ("page", .int page),
          ("per_page", .int per_page)] } ∧
    ((rows.drop ((page - 1) * per_page)).take per_page).length =
      min per_page (rows.length - (page - 1) * per_page) := by
  constructor
  · simp [get_users, endpointResponse, serialize_data, serialize_list_ofList,
      List.map_map, Function.comp_def, serialize_value_int]
  · simp [List.length_take, List.length_drop]

/-- A demonstration user row. -/
def mkDemoUser (n : Nat) : UserRow :=
  { id := n, username := "user" ++ toString n
    email := "user" ++ toString n ++ "@example.com"
    full_name := none, is_active := true, is_superuser := false
    created_at := ⟨2024, 1, 1, 0, 0, 0⟩, updated_at := ⟨2024, 1, 1, 0, 0, 0⟩ }

/-- A store of 25 demonstration users. -/
def rows25 : List UserRow := (List.range 25).map mkDemoUser

/-- Witness for C4: with 25 stored users, `page=1, per_page=10` yields exactly
10 items, `total=25`, and echoes `page=1`, `per_page=10`. -/
theorem get_users_pagination_witness :
    ((rows25.drop ((1 - 1) * 10)).take 10).length =
      min 10 (rows25.length - (1 - 1) * 10) ∧
    ((rows25.drop ((1 - 1) * 10)).take 10).length = 10 ∧
    rows25.length = 25 ∧
    List.lookup "total" (get_users 1 10 (Except.ok rows25)).content =
      some (.int 25) ∧
    List.lookup "page" (get_users 1 10 (Except.ok rows25)).content =
      some (.int 1) ∧
    List.lookup "per_page" (get_users 1 10 (Except.ok rows25)).content =
      some (.int 10) :=
  ⟨(get_users_pagination 1 10 rows25 (by decide) (by decide) (by decide)).2,
   rfl, rfl, rfl, rfl, rfl⟩

/-- Claim C6: `endpointResponse` converts a bare list or tuple payload
elementwise without an extra wrapping level, merges each keyword field,
individually converted, after `status_code`, `message` and `data`, and the
response's HTTP status code is the supplied code. -/
theorem endpointResponse_shape :
    (∀ (sc : Int) (msg : String) (xs : PyList) (kw : List (String × PyValue)),
      (endpointResponse sc msg (.list xs) kw).content =
        ("status_code", .int sc) :: ("message", .str msg) ::
          ("data", .list (serialize_list xs)) ::
          kw.map (fun kv => (kv.1, serialize_value kv.2)) ∧
      (endpointResponse sc msg (.tuple xs) kw).content =
        ("status_code", .int sc) :: ("message", .str msg) ::
          ("data", .list (serialize_list xs)) ::
          kw.map (fun kv => (kv.1, serialize_value kv.2))) ∧
    (∀ (sc : Int) (msg : String) (d : PyValue) (kw : List (String × PyValue)),
      (endpointResponse sc msg d kw).status_code = sc) :=
  ⟨fun _ _ _ _ => ⟨rfl, rfl⟩, fun _ _ _ _ => rfl⟩

/-- Claim C9: every success-envelope body has the key "data"; when the caller
passes no payload — as the delete-success, not-found and duplicate-user
responses do — the key is present with value null. In particular both branches
of `delete_user` answer with `data = null`. -/
theorem data_key_always_present :
    (∀ (sc : Int) (msg : String) (kw : List (String × PyValue)),
      List.lookup "data" (endpointResponse sc msg .pynone kw).content =
        some .pynone) ∧
    (∀ (user_id : Nat) (db : List UserRow),
      List.lookup "data" (delete_user user_id db).1.content = some .pynone) ∧
    (∀ (sc : Int) (msg : String) (d : PyValue) (kw : List (String × PyValue)),
      (List.lookup "data" (endpointResponse sc msg d kw).content).isSome = true) := by
  refine ⟨fun _ _ _ => rfl, ?_, fun _ _ _ _ => rfl⟩
  intro user_id db
  unfold delete_user
  cases db.find? (fun u => u.id == user_id) <;> rfl

/-- Claim C5: `_serialize_value` renders datetime, date-only and time-only
values as ISO-8601 text, converts decimals to floating-point numbers, decodes
byte sequences as UTF-8 text when valid and as lowercase hexadecimal text
otherwise, and recurses elementwise through lists/tuples (order preserved) and
valuewise through mappings (keys preserved, in order); in particular a mapping
holding a list holding a decimal comes back with the decimal made a float and
keys and element order intact. -/
theorem serialize_value_rules :
    (∀ d : PyDateTime, serialize_value (.datetime d) = .str d.isoformat) ∧
    (∀ d : PyDate, serialize_value (.date d) = .str d.isoformat) ∧
    (∀ t : PyTime, serialize_value (.time t) = .str t.isoformat) ∧
    (∀ q : Rat, serialize_value (.decimal q) = .float q) ∧
    (∀ bs : List Nat, serialize_value (.bytes bs) =
      .str (match utf8DecodeString bs with
            | some s => s
            | none => bytesHex bs)) ∧
    (∀ xs : PyList, serialize_value (.list xs) = .list (serialize_list xs) ∧
      serialize_value (.tuple xs) = .list (serialize_list xs) ∧
      (serialize_list xs).length = xs.length) ∧
    (∀ l : List PyValue,
      serialize_list (PyList.ofList l) = PyList.ofList (l.map serialize_value)) ∧
    (∀ kvs : PyDict, serialize_value (.dict kvs) = .dict (serialize_dictVals kvs) ∧
      (serialize_dictVals kvs).keys = kvs.keys) ∧
    serialize_value (.dict (.cons "values"
        (.list (.cons (.decimal ((3 : Rat) / 2)) (.cons (.int 1) .nil))) .nil)) =
      .dict (.cons "values"
        (.list (.cons (.float ((3 : Rat) / 2)) (.cons (.int 1) .nil))) .nil) := by
  refine ⟨fun _ => rfl, fun _ => rfl, fun _ => rfl, fun _ => rfl, ?_,
    fun xs => ⟨rfl, rfl, length_serialize_list xs⟩, serialize_list_ofList,
    fun kvs => ⟨rfl, keys_serialize_dictVals kvs⟩, rfl⟩
  intro bs
  show (match utf8DecodeString bs with
        | some s => PyValue.str s
        | none => PyValue.str (bytesHex bs)) = _
  cases utf8DecodeString bs <;> rfl

/-- Claim C3: `update_user` on an existing row answers 200, replaces exactly
the matched row in the store by the partially-updated row, and the partial
update applies exactly the fields present in the body: each absent field keeps
its stored value, each present field takes the supplied value, and `id` and
`created_at` are untouched. -/
theorem update_user_partial (user_id : Nat) (user_data : UserUpdate)
    (db : List UserRow) (now : PyDateTime) (user : UserRow)
    (h : db.find? (fun u => u.id == user_id) = some user) :
    (update_user user_id user_data db now).1.status_code = 200 ∧
    (update_user user_id user_data db now).2 =
      db.map (fun u => if u.id == user_id then apply_user_update user user_data now
                       else u) ∧
    (user_data.username = none →
      (apply_user_update user user_data now).username = user.username) ∧
    (user_data.email = none →
      (apply_user_update user user_data now).email = user.email) ∧
    (user_data.full_name = none →
      (apply_user_update user user_data now).full_name = user.full_name) ∧
    (user_data.is_active = none →
      (apply_user_update user user_data now).is_active = user.is_active) ∧
    (user_data.is_superuser = none →
      (apply_user_update user user_data now).is_superuser = user.is_superuser) ∧
    (∀ v, user_data.username = some v →
      (apply_user_update user user_data now).username = v) ∧
    (∀ v, user_data.email = some v →
      (apply_user_update user user_data now).email = v) ∧
    (∀ v, user_data.full_name = some v →
      (apply_user_update user user_data now).full_name = some v) ∧
    (∀ b, user_data.is_active = some b →
      (apply_user_update user user_data now).is_active = b) ∧
    (∀ b, user_data.is_superuser = some b →
      (apply_user_update user user_data now).is_superuser = b) ∧
    (apply_user_update user user_data now).id = user.id ∧
    (apply_user_update user user_data now).created_at = user.created_at := by
  refine ⟨?_, ?_, ?_, ?_, ?_, ?_, ?_, ?_, ?_, ?_, ?_, ?_, rfl, rfl⟩
  · unfold update_user; rw [h]; rfl
  · unfold update_user; rw [h]
  all_goals first
    | (intro he; simp [apply_user_update, he])
    | (intro v he; simp [apply_user_update, he])

/-- A stored user for the update witness. -/
def uAlice : UserRow :=
  { id := 1, username := "alice", email := "alice@example.com"
    full_name := none, is_active := true, is_superuser := false
    created_at := ⟨2024, 1, 1, 0, 0, 0⟩, updated_at := ⟨2024, 1, 1, 0, 0, 0⟩ }

/-- An update body supplying only `full_name`. -/
def udFullNameOnly : UserUpdate :=
  { username := none, email := none, full_name := some "Alice A."
    is_active := none, is_superuser := none }

/-- Witness for C3: updating the stored "alice" with a body supplying only
`full_name` leaves username, email, is_active and is_superuser unchanged and
applies the new full name. -/
theorem update_user_partial_witness :
    (update_user 1 udFullNameOnly [uAlice] ⟨2024, 2, 1, 0, 0, 0⟩).1.status_code = 200 ∧
    (apply_user_update uAlice udFullNameOnly ⟨2024, 2, 1, 0, 0, 0⟩).username =
      uAlice.username ∧
    (apply_user_update uAlice udFullNameOnly ⟨2024, 2, 1, 0, 0, 0⟩).email =
      uAlice.email ∧
    (apply_user_update uAlice udFullNameOnly ⟨2024, 2, 1, 0, 0, 0⟩).is_active =
      uAlice.is_active ∧
    (apply_user_update uAlice udFullNameOnly ⟨2024, 2, 1, 0, 0, 0⟩).is_superuser =
      uAlice.is_superuser ∧
    (apply_user_update uAlice udFullNameOnly ⟨2024, 2, 1, 0, 0, 0⟩).full_name =
      some "Alice A." := by
  have h := update_user_partial 1 udFullNameOnly [uAlice] ⟨2024, 2, 1, 0, 0, 0⟩
    uAlice (by decide)
  exact ⟨h.1, h.2.2.1 rfl, h.2.2.2.1 rfl, h.2.2.2.2.2.1 rfl, h.2.2.2.2.2.2.1 rfl,
    h.2.2.2.2.2.2.2.2.2.1 "Alice A." rfl⟩

/-! ## Theorems for the fault-message claim -/

/-- Counterexample to claim C1 as stated: a database fault raised while
handling the list-users request is caught by the endpoint's own catch-all,
which exposes the fault's textual description — not the fixed generic text —
irrespective of the environment (the handler never consults it), hence also in
a production-configured process. -/
theorem endpoint_fault_text_exposed :
    List.lookup "message"
        (get_users 1 10 (Except.error (Exc.sqlAlchemyError "connection refused"))).content =
      some (.str "connection refused") ∧
    (get_users 1 10 (Except.error (Exc.sqlAlchemyError "connection refused"))).status_code =
      500 ∧
    "connection refused" ≠ "A database error occurred" ∧
    "connection refused" ≠ "An unexpected error occurred" :=
  ⟨rfl, rfl, by decide, by decide⟩

/-- Claim C1 (amended): database and unclassified faults that reach the global
exception handlers are reported with the fixed generic messages (status 500)
in a production-configured process; but a fault raised inside a user-resource
endpoint body is caught by the endpoint's catch-all and reported with status
500 and the fault's own textual description, regardless of environment. -/
theorem production_fault_messages (env : List (String × String))
    (h : app_config_is_production env = true) :
    (∀ excText path ts : String,
      (sqlalchemy_exception_handler env excText path ts).2.message =
        "A database error occurred" ∧
      (sqlalchemy_exception_handler env excText path ts).1 = 500 ∧
      (general_exception_handler env excText path ts).2.message =
        "An unexpected error occurred" ∧
      (general_exception_handler env excText path ts).1 = 500) ∧
    (∀ (page per_page : Nat) (e : Exc),
      List.lookup "message" (get_users page per_page (Except.error e)).content =
        some (.str e.text) ∧
      (get_users page per_page (Except.error e)).status_code = 500) := by
  constructor
  · intro excText path ts
    refine ⟨?_, rfl, ?_, rfl⟩ <;>
      simp [sqlalchemy_exception_handler, general_exception_handler,
        create_error_response, h]
  · exact fun _ _ _ => ⟨rfl, rfl⟩

/-- Witness for the amended C1 at `ENVIRONMENT=production` and a concrete
fault. -/
theorem production_fault_messages_witness :
    (sqlalchemy_exception_handler [("ENVIRONMENT", "production")]
        "connection refused" "/api/v1/users/" "2024-01-01T00:00:00").2.message =
      "A database error occurred" ∧
    (general_exception_handler [("ENVIRONMENT", "production")]
        "boom" "/api/v1/users/" "2024-01-01T00:00:00").2.message =
      "An unexpected error occurred" ∧
    List.lookup "message"
        (get_users 1 10 (Except.error (Exc.otherError "boom"))).content =
      some (.str "boom") :=
  ⟨((production_fault_messages [("ENVIRONMENT", "production")] (by decide)).1
      "connection refused" "/api/v1/users/" "2024-01-01T00:00:00").1,
   ((production_fault_messages [("ENVIRONMENT", "production")] (by decide)).1
      "boom" "/api/v1/users/" "2024-01-01T00:00:00").2.2.1,
   ((production_fault_messages [("ENVIRONMENT", "production")] (by decide)).2
      1 10 (Exc.otherError "boom")).1⟩

/-! ## Idempotence of the serialization (claim C10) -/

mutual
/-- Values that never reach the two verbatim-dump branches of
`_serialize_value` (the validation-schema `model_dump` branch and the
`to_dict` branch), at any depth. -/
def pureData : PyValue → Bool
  | .pynone | .str _ | .int _ | .float _ | .bool _ | .datetime _ | .date _
  | .time _ | .decimal _ | .bytes _ | .strRepr _ => true
  | .pydanticObj _ => false
  | .toDictObj _ => false
  | .entity cols => pureDataDict cols
  | .list xs => pureDataList xs
  | .tuple xs => pureDataList xs
  | .dict kvs => pureDataDict kvs
  | .attrObj attrs => pureDataDict attrs
def pureDataList : PyList → Bool
  | .nil => true
  | .cons v tl => pureData v && pureDataList tl
def pureDataDict : PyDict → Bool
  | .nil => true
  | .cons _ v tl => pureData v && pureDataDict tl
end

mutual
/-- JSON-safe values: null, primitives, and lists / string-keyed mappings of
JSON-safe values. -/
def jsonSafe : PyValue → Bool
  | .pynone | .str _ | .int _ | .float _ | .bool _ => true
  | .list xs => jsonSafeList xs
  | .dict kvs => jsonSafeDict kvs
  | _ => false
def jsonSafeList : PyList → Bool
  | .nil => true
  | .cons v tl => jsonSafe v && jsonSafeList tl
def jsonSafeDict : PyDict → Bool
  | .nil => true
  | .cons _ v tl => jsonSafe v && jsonSafeDict tl
end

mutual
theorem pure_serialize_safe : ∀ v : PyValue, pureData v = true →
    jsonSafe (serialize_value v) = true
  | .pynone, _ => rfl
  | .str _, _ => rfl
  | .int _, _ => rfl
  | .float _, _ => rfl
  | .bool _, _ => rfl
  | .datetime _, _ => rfl
  | .date _, _ => rfl
  | .time _, _ => rfl
  | .decimal _, _ => rfl
  | .strRepr _, _ => rfl
  | .bytes bs, _ => by
    cases h2 : utf8DecodeString bs <;> simp [serialize_value, h2, jsonSafe]
  | .entity cols, h => by
    simpa [serialize_value, jsonSafe] using
      pure_dict_safe cols (by simpa [pureData] using h)
  | .list xs, h => by
    simpa [serialize_value, jsonSafe] using
      pure_list_safe xs (by simpa [pureData] using h)
  | .tuple xs, h => by
    simpa [serialize_value, jsonSafe] using
      pure_list_safe xs (by simpa [pureData] using h)
  | .dict kvs, h => by
    simpa [serialize_value, jsonSafe] using
      pure_dict_safe kvs (by simpa [pureData] using h)
  | .attrObj attrs, h => by
    simpa [serialize_value, jsonSafe] using
      pure_attrs_safe attrs (by simpa [pureData] using h)
theorem pure_list_safe : ∀ xs : PyList, pureDataList xs = true →
    jsonSafeList (serialize_list xs) = true
  | .nil, _ => rfl
  | .cons v tl, h => by
    have hv : pureData v = true := by
      have := h; simp [pureDataList, Bool.and_eq_true] at this; exact this.1
    have ht : pureDataList tl = true := by
      have := h; simp [pureDataList, Bool.and_eq_true] at this; exact this.2
    simp [serialize_list, jsonSafeList, Bool.and_eq_true,
      pure_serialize_safe v hv, pure_list_safe tl ht]
theorem pure_dict_safe : ∀ kvs : PyDict, pureDataDict kvs = true →
    jsonSafeDict (serialize_dictVals kvs) = true
  | .nil, _ => rfl
  | .cons k v tl, h => by
    have hv : pureData v = true := by
      have := h; simp [pureDataDict, Bool.and_eq_true] at this; exact this.1
    have ht : pureDataDict tl = true := by
      have := h; simp [pureDataDict, Bool.and_eq_true] at this; exact this.2
    simp [serialize_dictVals, jsonSafeDict, Bool.and_eq_true,
      pure_serialize_safe v hv, pure_dict_safe tl ht]
theorem pure_attrs_safe : ∀ kvs : PyDict, pureDataDict kvs = true →
    jsonSafeDict (serialize_attrs kvs) = true
  | .nil, _ => rfl
  | .cons k v tl, h => by
    have hv : pureData v = true := by
      have := h; simp [pureDataDict, Bool.and_eq_true] at this; exact this.1
    have ht : pureDataDict tl = true := by
      have := h; simp [pureDataDict, Bool.and_eq_true] at this; exact this.2
    by_cases hk : startsUnderscore k = true
    · simp [serialize_attrs, hk, pure_attrs_safe tl ht]
    · simp [serialize_attrs, hk, jsonSafeDict, Bool.and_eq_true,
        pure_serialize_safe v hv, pure_attrs_safe tl ht]
end

mutual
theorem safe_fixed : ∀ v : PyValue, jsonSafe v = true → serialize_value v = v
  | .pynone, _ => rfl
  | .str _, _ => rfl
  | .int _, _ => rfl
  | .float _, _ => rfl
  | .bool _, _ => rfl
  | .datetime _, h => by simp [jsonSafe] at h
  | .date _, h => by simp [jsonSafe] at h
  | .time _, h => by simp [jsonSafe] at h
  | .decimal _, h => by simp [jsonSafe] at h
  | .bytes _, h => by simp [jsonSafe] at h
  | .entity _, h => by simp [jsonSafe] at h
  | .pydanticObj _, h => by simp [jsonSafe] at h
  | .tuple _, h => by simp [jsonSafe] at h
  | .toDictObj _, h => by simp [jsonSafe] at h
  | .attrObj _, h => by simp [jsonSafe] at h
  | .strRepr _, h => by simp [jsonSafe] at h
  | .list xs, h => by
    simp [serialize_value, safe_list_fixed xs (by simpa [jsonSafe] using h)]
  | .dict kvs, h => by
    simp [serialize_value, safe_dict_fixed kvs (by simpa [jsonSafe] using h)]
theorem safe_list_fixed : ∀ xs : PyList, jsonSafeList xs = true →
    serialize_list xs = xs
  | .nil, _ => rfl
  | .cons v tl, h => by
    have hv : jsonSafe v = true := by
      have := h; simp [jsonSafeList, Bool.and_eq_true] at this; exact this.1
    have ht : jsonSafeList tl = true := by
      have := h; simp [jsonSafeList, Bool.and_eq_true] at this; exact this.2
    simp [serialize_list, safe_fixed v hv, safe_list_fixed tl ht]
theorem safe_dict_fixed : ∀ kvs : PyDict, jsonSafeDict kvs = true →
    serialize_dictVals kvs = kvs
  | .nil, _ => rfl
  | .cons k v tl, h => by
    have hv : jsonSafe v = true := by
      have := h; simp [jsonSafeDict, Bool.and_eq_true] at this; exact this.1
    have ht : jsonSafeDict tl = true := by
      have := h; simp [jsonSafeDict, Bool.and_eq_true] at this; exact this.2
    simp [serialize_dictVals, safe_fixed v hv, safe_dict_fixed tl ht]
end

/-- Counterexample to claim C10 as stated: an object whose `to_dict` returns a
mapping holding a datetime is not a fixed point after one conversion — the
first pass inserts the `to_dict` result verbatim, the second pass converts the
datetime inside it to ISO-8601 text. -/
theorem serialize_value_not_idempotent :
    serialize_value (serialize_value
        (.toDictObj (.cons "t" (.datetime ⟨2024, 1, 2, 3, 4, 5⟩) .nil))) ≠
      serialize_value (.toDictObj (.cons "t" (.datetime ⟨2024, 1, 2, 3, 4, 5⟩) .nil)) := by
  decide

/-- Claim C10 (amended): the conversion is idempotent on every value that
nowhere contains a validation-schema object or a `to_dict` object (the two
branches whose dumps are inserted verbatim, unconverted); and the JSON-safe
values — null, primitives, and lists / string-keyed mappings of such — are
fixed points of the conversion. -/
theorem serialize_value_idempotent_on_pure :
    (∀ v : PyValue, pureData v = true →
      serialize_value (serialize_value v) = serialize_value v) ∧
    (∀ v : PyValue, jsonSafe v = true → serialize_value v = v) :=
  ⟨fun v h => safe_fixed _ (pure_serialize_safe v h), safe_fixed⟩

/-- Witness for the amended C10 on a concrete nested value. -/
theorem serialize_value_idempotent_on_pure_witness :
    pureData (.dict (.cons "t" (.datetime ⟨2024, 1, 2, 3, 4, 5⟩)
        (.cons "xs" (.list (.cons (.decimal 1) .nil)) .nil))) = true ∧
    serialize_value (serialize_value (.dict (.cons "t"
        (.datetime ⟨2024, 1, 2, 3, 4, 5⟩)
        (.cons "xs" (.list (.cons (.decimal 1) .nil)) .nil)))) =
      serialize_value (.dict (.cons "t" (.datetime ⟨2024, 1, 2, 3, 4, 5⟩)
        (.cons "xs" (.list (.cons (.decimal 1) .nil)) .nil))) :=
  ⟨by decide,
   serialize_value_idempotent_on_pure.1 _ (by decide)⟩
